import Mathlib

/-!
Shallow embedding of the Interlink matcher core (`src/main.py`, endpoint
`match_internships`) together with proofs about its aggregation,
normalization, deduplication and ranking pipeline.

External collaborators (Supabase datastore, the JSearch and Adzuna HTTP
providers) are modelled as an explicit environment (`Env`) holding the
response each collaborator would give during one request.  The pipeline
itself is translated function by function from `src/main.py`; line numbers
in the doc comments refer to that file.
-/

namespace Interlink

/-- A row of the `students` table as returned by Supabase (line 55).
`skills` defaults to `[]` and `bio` may be null, matching
`student.get("skills", [])` and `student.get("bio")` (lines 62-63). -/
structure Student where
  id : String
  skills : List String
  bio : Option String
  deriving DecidableEq

/-- A row of the `internships` table: the catalog fetch selects
`id,title,description,required_skills` (line 68). -/
structure InternalRow where
  id : String
  title : String
  description : String
  required_skills : List String
  deriving DecidableEq

/-- One entry of the `data` array of the JSearch response; each field is
present or absent, read with `job.get(...)` defaults (lines 101-109). -/
structure JSearchJob where
  job_id : Option String
  job_title : Option String
  job_description : Option String
  job_apply_link : Option String
  deriving DecidableEq

/-- One entry of the `results` array of the Adzuna response (lines 130-138). -/
structure AdzunaJob where
  id : Option String
  title : Option String
  description : Option String
  redirect_url : Option String
  deriving DecidableEq

/-- A normalized candidate row of the combined DataFrame: columns
`id,title,description,required_skills,source,url,text` (lines 74-152). -/
structure Candidate where
  id : String
  title : String
  description : String
  required_skills : List String
  source : String
  url : String
  text : String
  deriving DecidableEq

/-- One record of the `matches` list of the response: columns
`id,title,description,similarity,source,url` (line 169). -/
structure RankedMatch where
  id : String
  title : String
  description : String
  similarity : ℚ
  source : String
  url : String
  deriving DecidableEq

/-- Outcome of one HTTP fetch performed with `requests.get`: either a
response with a status code and a parsed JSON payload (the relevant list:
`data` for JSearch, `results` for Adzuna), or a raised exception
(timeout, network error, JSON error). -/
inductive FetchResult (α : Type) where
  | ok (status : Nat) (body : List α)
  | exn (msg : String)
  deriving DecidableEq

/-- The environment of one request: what each external collaborator
would answer.  Credentials mirror the module-level `RAPIDAPI_KEY`,
`ADZUNA_APP_ID`, `ADZUNA_APP_KEY` (lines 16-18); a datastore call is an
`Except` (exception or data). -/
structure Env where
  studentRes : Except String (List Student)
  internalRes : Except String (List InternalRow)
  rapidApiKey : Option String
  jsearchRes : FetchResult JSearchJob
  adzunaAppId : Option String
  adzunaAppKey : Option String
  adzunaRes : FetchResult AdzunaJob

/-- One source-adapter fetch attempt, recorded in order for
observability of which collaborators the request contacted.  The
student-profile lookup is not a source-adapter fetch.  The provider
events carry the search query sent (`query=` for JSearch, `what` for
Adzuna). -/
inductive FetchEvent where
  | catalog
  | jsearch (query : String)
  | adzuna (what : String)
  deriving DecidableEq

/-- Result of the `/match` endpoint: a returned JSON error payload
(`{"error": ...}`, lines 57, 60, 158), a successful response
(lines 172-176), or an exception escaping the handler uncaught.  The
`matches` field of the response is named `matchList` here because `matches`
is a reserved word in Lean. -/
inductive Outcome where
  | errorPayload (msg : String)
  | raised (msg : String)
  | success (student_id : String) (matches_found : Nat) (matchList : List RankedMatch)
  deriving DecidableEq

/-- Lower-casing of one character, the ASCII fragment of the Python
`str.lower()` used on lines 64, 83, 150 (all inputs here are ASCII). -/
def pyLowerChar (c : Char) : Char :=
  if 65 ≤ c.toNat ∧ c.toNat ≤ 90 then Char.ofNat (c.toNat + 32) else c

/-- `str.lower()` on an ASCII string, character by character. -/
def pyLower (s : String) : String :=
  String.mk (s.data.map pyLowerChar)

/-- Python truthiness of an optional string credential:
`if RAPIDAPI_KEY:` is false for a missing variable (`None`) and for the
empty string. -/
def isTruthy : Option String → Bool
  | none => false
  | some s => s ≠ ""

/-- `student_text` (lines 62-64):
`(" ".join(student.get("skills", [])) + " " + (student.get("bio") or "")).lower()`. -/
def studentText (st : Student) : String :=
  pyLower (String.intercalate " " st.skills ++ " " ++ st.bio.getD "")

/-- `skills_query = "+".join(student.get("skills", [])) or "internship"`
(line 93): the empty join is falsy, so it defaults to `"internship"`. -/
def skillsQuery (skills : List String) : String :=
  if String.intercalate "+" skills = "" then "internship"
  else String.intercalate "+" skills

/-- The value of the `query` parameter of the JSearch URL (line 94):
`f"...query={skills_query}+internship&..."`. -/
def jsearchQueryParam (skills : List String) : String :=
  skillsQuery skills ++ "+internship"

/-- The value of the `what` parameter sent to Adzuna (line 125): the
constant string `"internship"`, independent of the profile. -/
def adzunaWhat : String := "internship"

/-- The value of the `results_per_page` parameter sent to Adzuna
(line 123). -/
def adzunaResultsPerPage : Nat := 10

/-- Normalization of a catalog row (lines 74-85): tag `source` as
`"supabase"`, empty `url`, and
`text = ((title or "") + " " + (description or "") + " " + " ".join(required_skills)).lower()`. -/
def mkInternalCandidate (r : InternalRow) : Candidate :=
  { id := r.id
    title := r.title
    description := r.description
    required_skills := r.required_skills
    source := "supabase"
    url := ""
    text := pyLower (r.title ++ " " ++ r.description ++ " "
              ++ String.intercalate " " r.required_skills) }

/-- `internal_data` mapped to rows (lines 67-85): a datastore error is
absorbed into an empty contribution (`internal_data = []`). -/
def internalPool (env : Env) : List Candidate :=
  (match env.internalRes with
    | Except.ok rows => rows
    | Except.error _ => []).map mkInternalCandidate

/-- `List.map` with the running index, mirroring loops that use
`len(accumulated_list)` as a default id while appending one entry per
iteration. -/
def mapWithIndexFrom (f : Nat → α → β) : Nat → List α → List β
  | _, [] => []
  | i, a :: l => f i a :: mapWithIndexFrom f (i + 1) l

/-- Normalization of one JSearch job (lines 102-109); `i` is
`len(jsearch_list)` at that iteration.  The `text` column is computed
later for the combined external frame. -/
def mkJsearchCandidate (i : Nat) (j : JSearchJob) : Candidate :=
  { id := j.job_id.getD ("j_" ++ toString i)
    title := j.job_title.getD "Untitled"
    description := j.job_description.getD ""
    required_skills := []
    source := "external_jsearch"
    url := j.job_apply_link.getD ""
    text := "" }

/-- Normalization of one Adzuna job (lines 131-138); `i` is
`len(adzuna_list)` at that iteration. -/
def mkAdzunaCandidate (i : Nat) (j : AdzunaJob) : Candidate :=
  { id := "adz_" ++ j.id.getD (toString i)
    title := j.title.getD "Untitled"
    description := j.description.getD ""
    required_skills := []
    source := "external_adzuna"
    url := j.redirect_url.getD ""
    text := "" }

/-- `jsearch_list` (lines 90-114): nothing without a truthy
`RAPIDAPI_KEY`; on a 200 response the first 10 entries of `data` are
normalized (`response.json().get("data", [])[:10]`); a non-200 status or
a raised exception leaves the list empty. -/
def jsearchCandidates (env : Env) : List Candidate :=
  if isTruthy env.rapidApiKey then
    match env.jsearchRes with
    | FetchResult.ok status jobs =>
        if status = 200 then mapWithIndexFrom mkJsearchCandidate 0 (jobs.take 10)
        else []
    | FetchResult.exn _ => []
  else []

/-- `adzuna_list` (lines 117-143): nothing without truthy
`ADZUNA_APP_ID` and `ADZUNA_APP_KEY`; on a 200 response every entry of
`results` is normalized — the loop `for job in resp.json().get("results", [])`
has no `[:10]` slice; non-200 or an exception leaves the list empty. -/
def adzunaCandidates (env : Env) : List Candidate :=
  if isTruthy env.adzunaAppId && isTruthy env.adzunaAppKey then
    match env.adzunaRes with
    | FetchResult.ok status jobs =>
        if status = 200 then mapWithIndexFrom mkAdzunaCandidate 0 jobs
        else []
    | FetchResult.exn _ => []
  else []

/-- The external `text` column (lines 148-152), computed on the
concatenated external frame:
`((x["title"] or "") + " " + (x["description"] or "")).lower()`. -/
def setExternalText (c : Candidate) : Candidate :=
  { c with text := pyLower (c.title ++ " " ++ c.description) }

/-- `external_df` = `jsearch_list + adzuna_list` with the `text` column
added (lines 146-152). -/
def externalPool (env : Env) : List Candidate :=
  (jsearchCandidates env ++ adzunaCandidates env).map setExternalText

/-- `all_internships = pd.concat([internal_df, external_df])` (line 154):
catalog rows first, then provider A (JSearch), then provider B (Adzuna). -/
def aggregatedPool (env : Env) : List Candidate :=
  internalPool env ++ externalPool env

/-- The deduplication key (line 155): `subset=["title", "description"]`,
exact equality on the raw columns. -/
def candKey (c : Candidate) : String × String :=
  (c.title, c.description)

/-- Worker for `drop_duplicates`: walk the rows in order keeping a row
exactly when its key was not seen before (pandas `keep="first"`). -/
def dropDupAux (seen : List (String × String)) : List Candidate → List Candidate
  | [] => []
  | c :: cs =>
      if candKey c ∈ seen then dropDupAux seen cs
      else c :: dropDupAux (candKey c :: seen) cs

/-- `all_internships.drop_duplicates(subset=["title", "description"], inplace=True)`
(line 155): keep the first row of every `(title, description)` key, in
row order. -/
def dropDuplicatesByKey (l : List Candidate) : List Candidate :=
  dropDupAux [] l

/-- The candidate pool after deduplication (line 155 result). -/
def dedupedPool (env : Env) : List Candidate :=
  dropDuplicatesByKey (aggregatedPool env)

/-- `corpus = [student_text] + all_internships["text"].tolist()`
(line 161): the profile document first, then each deduplicated
text of each deduplicated candidate in pool order. -/
def corpus (env : Env) (st : Student) : List String :=
  studentText st :: (dedupedPool env).map Candidate.text

/-- Word characters of the default scikit-learn token pattern
`\b\w\w+\b` (ASCII fragment of `\w`). -/
def isWordChar (c : Char) : Bool :=
  c.isAlphanum || c = '_'

/-- Splits a character list into its maximal runs of word characters;
`cur` is the current run accumulated in reverse. -/
def wordRunsAux (cur : List Char) : List Char → List (List Char)
  | [] => if cur = [] then [] else [cur.reverse]
  | c :: cs =>
      if isWordChar c then wordRunsAux (c :: cur) cs
      else if cur = [] then wordRunsAux [] cs
      else cur.reverse :: wordRunsAux [] cs

/-- The default scikit-learn analyzer for one document: lower-case, then
take the maximal runs of word characters of length at least 2
(token pattern `\b\w\w+\b`). -/
def tokenizeDoc (s : String) : List String :=
  ((wordRunsAux [] (pyLower s).data).map String.mk).filter (fun t => 2 ≤ t.length)

/-- The built-in English stop-word list of scikit-learn
(`sklearn.feature_extraction.text.ENGLISH_STOP_WORDS`, selected by
`TfidfVectorizer(stop_words="english")` on line 162). -/
def englishStopWords : List String :=
  ["a", "about", "above", "across", "after", "afterwards", "again", "against",
   "all", "almost", "alone", "along", "already", "also", "although", "always",
   "am", "among", "amongst", "amoungst", "amount", "an", "and", "another",
   "any", "anyhow", "anyone", "anything", "anyway", "anywhere", "are",
   "around", "as", "at", "back", "be", "became", "because", "become",
   "becomes", "becoming", "been", "before", "beforehand", "behind", "being",
   "below", "beside", "besides", "between", "beyond", "bill", "both",
   "bottom", "but", "by", "call", "can", "cannot", "cant", "co", "con",
   "could", "couldnt", "cry", "de", "describe", "detail", "do", "done",
   "down", "due", "during", "each", "eg", "eight", "either", "eleven",
   "else", "elsewhere", "empty", "enough", "etc", "even", "ever", "every",
   "everyone", "everything", "everywhere", "except", "few", "fifteen",
   "fifty", "fify", "fill", "find", "fire", "first", "five", "for",
   "former", "formerly", "forty", "found", "four", "from", "front", "full",
   "further", "get", "give", "go", "had", "has", "hasnt", "have", "he",
   "hence", "her", "here", "hereafter", "hereby", "herein", "hereupon",
   "hers", "herself", "him", "himself", "his", "how", "however", "hundred",
   "i", "ie", "if", "in", "inc", "indeed", "interest", "into", "is", "it",
   "its", "itself", "keep", "last", "latter", "latterly", "least", "less",
   "ltd", "made", "many", "may", "me", "meanwhile", "might", "mill", "mine",
   "more", "moreover", "most", "mostly", "move", "much", "must", "my",
   "myself", "name", "namely", "neither", "never", "nevertheless", "next",
   "nine", "no", "nobody", "none", "noone", "nor", "not", "nothing", "now",
   "nowhere", "of", "off", "often", "on", "once", "one", "only", "onto",
   "or", "other", "others", "otherwise", "our", "ours", "ourselves", "out",
   "over", "own", "part", "per", "perhaps", "please", "put", "rather", "re",
   "same", "see", "seem", "seemed", "seeming", "seems", "serious",
   "several", "she", "should", "show", "side", "since", "sincere", "six",
   "sixty", "so", "some", "somehow", "someone", "something", "sometime",
   "sometimes", "somewhere", "still", "such", "system", "take", "ten",
   "than", "that", "the", "their", "them", "themselves", "then", "thence",
   "there", "thereafter", "thereby", "therefore", "therein", "thereupon",
   "these", "they", "thick", "thin", "third", "this", "those", "though",
   "three", "through", "throughout", "thru", "thus", "to", "together",
   "too", "top", "toward", "towards", "twelve", "twenty", "two", "un",
   "under", "until", "up", "upon", "us", "very", "via", "was", "we",
   "well", "were", "what", "whatever", "when", "whence", "whenever",
   "where", "whereafter", "whereas", "whereby", "wherein", "whereupon",
   "wherever", "whether", "which", "while", "whither", "who", "whoever",
   "whole", "whom", "whose", "why", "will", "with", "within", "without",
   "would", "yet", "you", "your", "yours", "yourself", "yourselves"]

/-- The vocabulary `TfidfVectorizer(stop_words="english")` derives from
the corpus (line 162-163): every token of every document that is not a
stop-word.  `fit_transform` raises
`ValueError("empty vocabulary; perhaps the documents only contain stop words")`
when this is empty. -/
def buildVocab (docs : List String) : List String :=
  ((docs.flatMap tokenizeDoc).filter (fun t => t ∉ englishStopWords)).dedup

/-- The exception message scikit-learn raises from `fit_transform` when
the vocabulary is empty; `match_internships` has no handler around
lines 161-169, so it escapes the endpoint. -/
def emptyVocabularyMsg : String :=
  "empty vocabulary; perhaps the documents only contain stop words"

/-- Scores attached to the pool (lines 164-165):
`cosine_similarity(tfidf_matrix[0:1], tfidf_matrix[1:])` yields one score
per deduplicated candidate, in pool order.  The numeric value of one
score is a deterministic function of the whole corpus and of that
own `text` of that candidate (its row of the TF-IDF matrix); its
floating-point arithmetic (logarithms and square roots) is kept abstract
as the parameter `simDoc`. -/
def scoredPool (env : Env) (simDoc : List String → String → ℚ) (st : Student) :
    List (Candidate × ℚ) :=
  (dedupedPool env).map (fun c => (c, simDoc (corpus env st) c.text))

/-- Stable descending insertion into a descending-sorted list: an
element goes before the first strictly-smaller score, after equal ones
already present. -/
def insertDescBySim (x : Candidate × ℚ) : List (Candidate × ℚ) → List (Candidate × ℚ)
  | [] => [x]
  | y :: ys => if y.2 ≤ x.2 then x :: y :: ys else y :: insertDescBySim x ys

/-- `all_internships.sort_values("similarity", ascending=False)`
(line 168), as a stable descending sort.  pandas computes an ascending
argsort of the reversed column and reverses the resulting indexer
(`nargsort`), which on the insertion-sort regime of numpy (arrays of at most
16 elements under the default `kind="quicksort"`, an introsort) equals
exactly this stable descending sort; for longer arrays the numpy quicksort
gives no guarantee on the relative order of equal scores. -/
def sortValuesDescBySim (l : List (Candidate × ℚ)) : List (Candidate × ℚ) :=
  l.foldr insertDescBySim []

/-- `top_matches = ... .head(10)` (line 168). -/
def topMatches (env : Env) (simDoc : List String → String → ℚ) (st : Student) :
    List (Candidate × ℚ) :=
  (sortValuesDescBySim (scoredPool env simDoc st)).take 10

/-- Projection of a scored row to a response record (line 169). -/
def toRankedMatch (p : Candidate × ℚ) : RankedMatch :=
  { id := p.1.id
    title := p.1.title
    description := p.1.description
    similarity := p.2
    source := p.1.source
    url := p.1.url }

/-- The source-adapter fetch attempts of one request, in program order:
the catalog read (line 68) always happens once a student is resolved;
the JSearch call (line 99) happens exactly when `RAPIDAPI_KEY` is
truthy, with `query={skills_query}+internship`; the Adzuna call
(line 128) happens exactly when both Adzuna credentials are truthy, with
`what="internship"`. -/
def fetchEvents (env : Env) (st : Student) : List FetchEvent :=
  FetchEvent.catalog ::
    ((if isTruthy env.rapidApiKey then
        [FetchEvent.jsearch (jsearchQueryParam st.skills)] else []) ++
     (if isTruthy env.adzunaAppId && isTruthy env.adzunaAppKey then
        [FetchEvent.adzuna adzunaWhat] else []))

/-- The `/match` endpoint `match_internships` (lines 47-176), returning
the outcome together with the source-adapter fetches performed.
Branches in order: a datastore exception on the student lookup returns
an error payload (line 60); an empty `students` result returns the
not-found payload (line 57); an empty pool after dedup returns the
no-internships payload (line 158); an empty TF-IDF vocabulary makes
`fit_transform` raise out of the endpoint (line 163); otherwise the
ranked top 10 are returned (lines 168-176). -/
def matchInternships (env : Env) (simDoc : List String → String → ℚ)
    (studentId : String) : Outcome × List FetchEvent :=
  match env.studentRes with
  | Except.error e =>
      (Outcome.errorPayload ("Database error fetching student: " ++ e), [])
  | Except.ok [] =>
      (Outcome.errorPayload ("No student found with id " ++ studentId), [])
  | Except.ok (st :: _) =>
      let events := fetchEvents env st
      if dedupedPool env = [] then
        (Outcome.errorPayload "No internships found (Supabase + APIs)", events)
      else if buildVocab (corpus env st) = [] then
        (Outcome.raised emptyVocabularyMsg, events)
      else
        let results := (topMatches env simDoc st).map toRankedMatch
        (Outcome.success studentId results.length results, events)

/-! Concrete environments used to evaluate the pipeline on explicit
inputs.  `simZero` is a stand-in for the abstract similarity parameter;
the theorems that use it do not depend on the scores it produces. -/

/-- A concrete instantiation of the abstract similarity parameter. -/
def simZero : List String → String → ℚ := fun _ _ => 0

/-- A student with no skills and no biography. -/
def stEmpty : Student := { id := "s1", skills := [], bio := none }

/-- A student with one skill. -/
def stPy : Student := { id := "s9", skills := ["python"], bio := none }

/-- A catalog row whose title, description and skills are all empty. -/
def rowBlank : InternalRow :=
  { id := "i1", title := "", description := "", required_skills := [] }

/-- Environment: skill-less student, one all-blank catalog row, no
provider credentials.  Every corpus document tokenizes to nothing, so
the TF-IDF vocabulary is empty. -/
def envC1 : Env :=
  { studentRes := Except.ok [stEmpty]
    internalRes := Except.ok [rowBlank]
    rapidApiKey := none
    jsearchRes := FetchResult.ok 200 []
    adzunaAppId := none
    adzunaAppKey := none
    adzunaRes := FetchResult.ok 200 [] }

/-- Environment whose student lookup itself throws a datastore
exception. -/
def envDbErr : Env :=
  { studentRes := Except.error "connection refused"
    internalRes := Except.ok []
    rapidApiKey := none
    jsearchRes := FetchResult.ok 200 []
    adzunaAppId := none
    adzunaAppKey := none
    adzunaRes := FetchResult.ok 200 [] }

/-- Environment whose student lookup resolves to no record. -/
def envNoStudent : Env :=
  { studentRes := Except.ok []
    internalRes := Except.ok [rowBlank]
    rapidApiKey := some "rk"
    jsearchRes := FetchResult.ok 200 []
    adzunaAppId := some "aid"
    adzunaAppKey := some "akey"
    adzunaRes := FetchResult.ok 200 [] }

/-- Environment where every configured source contributes zero
candidates: empty catalog, no provider credentials. -/
def envEmptySources : Env :=
  { studentRes := Except.ok [stEmpty]
    internalRes := Except.ok []
    rapidApiKey := none
    jsearchRes := FetchResult.ok 200 []
    adzunaAppId := none
    adzunaAppKey := none
    adzunaRes := FetchResult.ok 200 [] }

/-- A catalog row with title `"X"` and description `"Y"`. -/
def rowXY : InternalRow :=
  { id := "i1", title := "X", description := "Y", required_skills := [] }

/-- A JSearch job with the same raw title and description as `rowXY`. -/
def jobXY : JSearchJob :=
  { job_id := some "j1", job_title := some "X", job_description := some "Y"
    job_apply_link := some "http://a" }

/-- Environment where the catalog and JSearch both return a listing with
the identical `(title, description)` pair `("X", "Y")`. -/
def env4 : Env :=
  { studentRes := Except.ok [stEmpty]
    internalRes := Except.ok [rowXY]
    rapidApiKey := some "rk"
    jsearchRes := FetchResult.ok 200 [jobXY]
    adzunaAppId := none
    adzunaAppKey := none
    adzunaRes := FetchResult.ok 200 [] }

/-- The normalized catalog candidate of `rowXY`. -/
def cCatXY : Candidate := mkInternalCandidate rowXY

/-- Environment where the profile datastore errors on the listing fetch,
JSearch times out and Adzuna answers with status 500: every source-level
failure at once. -/
def envAbsorb : Env :=
  { studentRes := Except.ok [stEmpty]
    internalRes := Except.error "ds down"
    rapidApiKey := some "rk"
    jsearchRes := FetchResult.exn "timeout"
    adzunaAppId := some "aid"
    adzunaAppKey := some "akey"
    adzunaRes := FetchResult.ok 500 [] }

/-- One Adzuna job used to build an oversized provider response. -/
def adzJob : AdzunaJob :=
  { id := none, title := some "T", description := some "D", redirect_url := none }

/-- Environment where Adzuna answers 200 with eleven results even though
`results_per_page=10` was requested (nothing in the adapter prevents
this: the response size is chosen by the provider). -/
def envAdz11 : Env :=
  { studentRes := Except.ok [stEmpty]
    internalRes := Except.ok []
    rapidApiKey := none
    jsearchRes := FetchResult.ok 200 []
    adzunaAppId := some "aid"
    adzunaAppKey := some "akey"
    adzunaRes := FetchResult.ok 200 (List.replicate 11 adzJob) }

/-- Environment with a skilled student and both providers configured
(their fetches time out, which does not affect the queries sent). -/
def envC9 : Env :=
  { studentRes := Except.ok [stPy]
    internalRes := Except.ok []
    rapidApiKey := some "rk"
    jsearchRes := FetchResult.exn "timeout"
    adzunaAppId := some "aid"
    adzunaAppKey := some "akey"
    adzunaRes := FetchResult.exn "timeout" }

/-! Helper lemmas about first-occurrence deduplication. -/

theorem dropDupAux_sublist :
    ∀ (l : List Candidate) (seen : List (String × String)),
      List.Sublist (dropDupAux seen l) l := by
  intro l
  induction l with
  | nil => intro seen; simp [dropDupAux]
  | cons a t ih =>
      intro seen
      by_cases ha : candKey a ∈ seen
      · simp only [dropDupAux, if_pos ha]
        exact List.Sublist.cons a (ih seen)
      · simp only [dropDupAux, if_neg ha]
        exact List.Sublist.cons₂ a (ih _)

theorem mem_dropDupAux {c : Candidate} :
    ∀ (l : List Candidate) (seen : List (String × String)),
      c ∈ dropDupAux seen l → c ∈ l ∧ candKey c ∉ seen := by
  intro l
  induction l with
  | nil => intro seen h; simp [dropDupAux] at h
  | cons a t ih =>
      intro seen h
      by_cases ha : candKey a ∈ seen
      · rw [dropDupAux, if_pos ha] at h
        obtain ⟨h1, h2⟩ := ih seen h
        exact ⟨List.mem_cons_of_mem _ h1, h2⟩
      · rw [dropDupAux, if_neg ha] at h
        rcases List.mem_cons.mp h with rfl | hmem
        · exact ⟨List.mem_cons_self _ _, ha⟩
        · obtain ⟨h1, h2⟩ := ih _ hmem
          refine ⟨List.mem_cons_of_mem _ h1, fun hs => h2 ?_⟩
          exact List.mem_cons_of_mem _ hs

theorem dropDupAux_pairwise :
    ∀ (l : List Candidate) (seen : List (String × String)),
      (dropDupAux seen l).Pairwise (fun a b => candKey a ≠ candKey b) := by
  intro l
  induction l with
  | nil => intro seen; simp [dropDupAux]
  | cons a t ih =>
      intro seen
      by_cases ha : candKey a ∈ seen
      · simpa only [dropDupAux, if_pos ha] using ih seen
      · simp only [dropDupAux, if_neg ha]
        refine List.Pairwise.cons ?_ (ih _)
        intro b hb heq
        have h2 := (mem_dropDupAux t (candKey a :: seen) hb).2
        apply h2
        rw [← heq]
        exact List.mem_cons_self _ _

theorem dropDupAux_firstOcc {c : Candidate} :
    ∀ (l : List Candidate) (seen : List (String × String)),
      c ∈ dropDupAux seen l →
      ∃ l₁ l₂, l = l₁ ++ c :: l₂ ∧
        ∀ b ∈ l₁, candKey b = candKey c → candKey b ∈ seen := by
  intro l
  induction l with
  | nil => intro seen h; simp [dropDupAux] at h
  | cons a t ih =>
      intro seen h
      by_cases ha : candKey a ∈ seen
      · rw [dropDupAux, if_pos ha] at h
        obtain ⟨l₁, l₂, rfl, hcov⟩ := ih seen h
        refine ⟨a :: l₁, l₂, rfl, ?_⟩
        intro b hb hkey
        rcases List.mem_cons.mp hb with rfl | hb2
        · exact ha
        · exact hcov b hb2 hkey
      · rw [dropDupAux, if_neg ha] at h
        rcases List.mem_cons.mp h with rfl | h2
        · exact ⟨[], t, rfl, by intro b hb; simp at hb⟩
        · obtain ⟨l₁, l₂, rfl, hcov⟩ := ih _ h2
          have hck : candKey c ∉ candKey a :: seen := (mem_dropDupAux _ _ h2).2
          refine ⟨a :: l₁, l₂, rfl, ?_⟩
          intro b hb hkey
          rcases List.mem_cons.mp hb with rfl | hb2
          · exfalso
            apply hck
            rw [← hkey]
            exact List.mem_cons_self _ _
          · have hseen := hcov b hb2 hkey
            rcases List.mem_cons.mp hseen with heq | hs
            · exfalso
              apply hck
              rw [← hkey, heq]
              exact List.mem_cons_self _ _
            · exact hs

theorem dropDupAux_complete {c : Candidate} :
    ∀ (l : List Candidate) (seen : List (String × String)),
      c ∈ l → candKey c ∉ seen →
      ∃ d, d ∈ dropDupAux seen l ∧ candKey d = candKey c := by
  intro l
  induction l with
  | nil => intro seen h _; simp at h
  | cons a t ih =>
      intro seen hc hs
      by_cases ha : candKey a ∈ seen
      · rw [dropDupAux, if_pos ha]
        rcases List.mem_cons.mp hc with rfl | hc2
        · exact absurd ha hs
        · exact ih seen hc2 hs
      · rw [dropDupAux, if_neg ha]
        rcases List.mem_cons.mp hc with rfl | hc2
        · exact ⟨c, List.mem_cons_self _ _, rfl⟩
        · by_cases hk : candKey c = candKey a
          · exact ⟨a, List.mem_cons_self _ _, hk.symm⟩
          · have hnot : candKey c ∉ candKey a :: seen := by
              intro hmem
              rcases List.mem_cons.mp hmem with h1 | h2
              · exact hk h1
              · exact hs h2
            obtain ⟨d, hd, hdk⟩ := ih _ hc2 hnot
            exact ⟨d, List.mem_cons_of_mem _ hd, hdk⟩

theorem dropDupAux_mem_of_key_in_left {c b : Candidate} :
    ∀ (l₁ l₂ : List Candidate) (seen : List (String × String)),
      c ∈ dropDupAux seen (l₁ ++ l₂) → b ∈ l₁ → candKey b = candKey c →
      c ∈ l₁ := by
  intro l₁
  induction l₁ with
  | nil => intro l₂ seen _ hb _; simp at hb
  | cons a t ih =>
      intro l₂ seen hc hb hkey
      rw [List.cons_append] at hc
      by_cases ha : candKey a ∈ seen
      · rw [dropDupAux, if_pos ha] at hc
        rcases List.mem_cons.mp hb with rfl | hb2
        · exfalso
          apply (mem_dropDupAux _ _ hc).2
          rw [← hkey]
          exact ha
        · exact List.mem_cons_of_mem _ (ih l₂ seen hc hb2 hkey)
      · rw [dropDupAux, if_neg ha] at hc
        rcases List.mem_cons.mp hc with rfl | hc2
        · exact List.mem_cons_self _ _
        · rcases List.mem_cons.mp hb with rfl | hb2
          · exfalso
            apply (mem_dropDupAux _ _ hc2).2
            rw [← hkey]
            exact List.mem_cons_self _ _
          · exact List.mem_cons_of_mem _ (ih l₂ _ hc2 hb2 hkey)

theorem dropDuplicatesByKey_sublist (l : List Candidate) :
    List.Sublist (dropDuplicatesByKey l) l :=
  dropDupAux_sublist l []

theorem dropDuplicatesByKey_pairwise (l : List Candidate) :
    (dropDuplicatesByKey l).Pairwise (fun a b => candKey a ≠ candKey b) :=
  dropDupAux_pairwise l []

theorem dropDuplicatesByKey_firstOcc {c : Candidate} (l : List Candidate)
    (h : c ∈ dropDuplicatesByKey l) :
    ∃ l₁ l₂, l = l₁ ++ c :: l₂ ∧ ∀ b ∈ l₁, candKey b ≠ candKey c := by
  obtain ⟨l₁, l₂, rfl, hcov⟩ := dropDupAux_firstOcc l [] h
  refine ⟨l₁, l₂, rfl, ?_⟩
  intro b hb heq
  simpa using hcov b hb heq

theorem dropDuplicatesByKey_complete {c : Candidate} (l : List Candidate)
    (h : c ∈ l) :
    ∃ d, d ∈ dropDuplicatesByKey l ∧ candKey d = candKey c :=
  dropDupAux_complete l [] h (by simp)

theorem mapWithIndexFrom_length (f : Nat → α → β) :
    ∀ (i : Nat) (l : List α), (mapWithIndexFrom f i l).length = l.length := by
  intro i l
  induction l generalizing i with
  | nil => rfl
  | cons a t ih => simp [mapWithIndexFrom, ih]

theorem internalPool_source {env : Env} {c : Candidate}
    (h : c ∈ internalPool env) : c.source = "supabase" := by
  obtain ⟨r, _, rfl⟩ := List.mem_map.mp h
  rfl

/-! Claim theorems. -/

/-- C3: for every aggregated candidate pool, the deduplicated pool is no
longer than the aggregated pool, and it contains no two entries whose
raw (pre-lower-cased) `title` and `description` columns are both
exactly, case-sensitively equal. -/
theorem dedup_pool_invariant (env : Env) :
    (dedupedPool env).length ≤ (aggregatedPool env).length ∧
    (dedupedPool env).Pairwise
      (fun a b => ¬ (a.title = b.title ∧ a.description = b.description)) := by
  refine ⟨(dropDuplicatesByKey_sublist _).length_le, ?_⟩
  refine (dropDuplicatesByKey_pairwise _).imp ?_
  intro a b hk hab
  exact hk (by simp [candKey, hab.1, hab.2])

/-- C4: every entry retained by deduplication is the first entry of the
aggregated pool (catalog, then JSearch, then Adzuna) carrying its
`(title, description)` key, and when that key also occurs among the
catalog rows the retained entry carries the catalog source tag
`"supabase"`. -/
theorem first_seen_wins (env : Env) (c : Candidate)
    (hc : c ∈ dedupedPool env) :
    (∃ l₁ l₂, aggregatedPool env = l₁ ++ c :: l₂ ∧
        ∀ b ∈ l₁, candKey b ≠ candKey c) ∧
    ((∃ b ∈ internalPool env, candKey b = candKey c) →
        c.source = "supabase") := by
  constructor
  · exact dropDuplicatesByKey_firstOcc _ hc
  · rintro ⟨b, hb, hkey⟩
    have hc2 : c ∈ dropDupAux [] (internalPool env ++ externalPool env) := hc
    exact internalPool_source
      (dropDupAux_mem_of_key_in_left (internalPool env) (externalPool env) [] hc2 hb hkey)

/-- C4 witness: in `env4` the catalog row and the JSearch job share the
key `("X", "Y")`; the retained entry is the catalog candidate and its
source tag is `"supabase"`. -/
theorem first_seen_wins_witness :
    cCatXY ∈ dedupedPool env4 ∧
    ((∃ l₁ l₂, aggregatedPool env4 = l₁ ++ cCatXY :: l₂ ∧
        ∀ b ∈ l₁, candKey b ≠ candKey cCatXY) ∧
     ((∃ b ∈ internalPool env4, candKey b = candKey cCatXY) →
        cCatXY.source = "supabase")) :=
  ⟨by decide, first_seen_wins env4 cCatXY (by decide)⟩

/-- C10: deduplication keeps a subsequence of the aggregated pool (so
relative order is preserved), every retained entry is the first
occurrence of its key, every aggregated key is still represented, and
the scoring corpus is the profile document followed by the deduplicated
texts in that same order. -/
theorem dedup_order_and_corpus (env : Env) (st : Student) :
    List.Sublist (dedupedPool env) (aggregatedPool env) ∧
    (∀ c ∈ dedupedPool env, ∃ l₁ l₂, aggregatedPool env = l₁ ++ c :: l₂ ∧
        ∀ b ∈ l₁, candKey b ≠ candKey c) ∧
    (∀ c ∈ aggregatedPool env, ∃ d ∈ dedupedPool env, candKey d = candKey c) ∧
    corpus env st = studentText st :: (dedupedPool env).map Candidate.text := by
  refine ⟨dropDuplicatesByKey_sublist _, ?_, ?_, rfl⟩
  · intro c hc
    exact dropDuplicatesByKey_firstOcc _ hc
  · intro c hc
    obtain ⟨d, hd, hk⟩ := dropDuplicatesByKey_complete _ hc
    exact ⟨d, hd, hk⟩

/-- C10 witness: the order-preservation statement evaluated in `env4` at
the concrete retained candidate `cCatXY`. -/
theorem dedup_order_and_corpus_witness :
    cCatXY ∈ dedupedPool env4 ∧
    (∃ l₁ l₂, aggregatedPool env4 = l₁ ++ cCatXY :: l₂ ∧
        ∀ b ∈ l₁, candKey b ≠ candKey cCatXY) ∧
    (∃ d ∈ dedupedPool env4, candKey d = candKey cCatXY) ∧
    corpus env4 stEmpty = studentText stEmpty :: (dedupedPool env4).map Candidate.text :=
  ⟨by decide,
   (dedup_order_and_corpus env4 stEmpty).2.1 cCatXY (by decide),
   (dedup_order_and_corpus env4 stEmpty).2.2.1 cCatXY (by decide),
   (dedup_order_and_corpus env4 stEmpty).2.2.2⟩

/-- C5: when the student lookup succeeds but resolves to no record, the
endpoint returns the not-found error payload and the fetch trace is
empty: no catalog read and no provider call happened. -/
theorem profile_not_found_aborts (env : Env)
    (simDoc : List String → String → ℚ) (sid : String)
    (h : env.studentRes = Except.ok []) :
    matchInternships env simDoc sid
      = (Outcome.errorPayload ("No student found with id " ++ sid), []) := by
  simp [matchInternships, h]

/-- C5 witness: the not-found abort evaluated in `envNoStudent`. -/
theorem profile_not_found_aborts_witness :
    envNoStudent.studentRes = Except.ok [] ∧
    matchInternships envNoStudent simZero "sX"
      = (Outcome.errorPayload ("No student found with id " ++ "sX"), []) :=
  ⟨rfl, profile_not_found_aborts envNoStudent simZero "sX" rfl⟩

/-- C6: when the student is resolved but every configured source
contributes zero candidates, the endpoint returns the distinct
no-internships error payload rather than a successful empty match
list. -/
theorem all_sources_empty_fails (env : Env)
    (simDoc : List String → String → ℚ) (sid : String)
    (st : Student) (rest : List Student)
    (hs : env.studentRes = Except.ok (st :: rest))
    (h1 : internalPool env = []) (h2 : jsearchCandidates env = [])
    (h3 : adzunaCandidates env = []) :
    matchInternships env simDoc sid
      = (Outcome.errorPayload "No internships found (Supabase + APIs)",
         fetchEvents env st) := by
  have hagg : aggregatedPool env = [] := by
    simp [aggregatedPool, externalPool, h1, h2, h3]
  have hded : dedupedPool env = [] := by
    simp [dedupedPool, hagg, dropDuplicatesByKey, dropDupAux]
  simp [matchInternships, hs, hded]

/-- C6 witness: the no-candidates failure evaluated in
`envEmptySources`. -/
theorem all_sources_empty_fails_witness :
    envEmptySources.studentRes = Except.ok [stEmpty] ∧
    internalPool envEmptySources = [] ∧
    jsearchCandidates envEmptySources = [] ∧
    adzunaCandidates envEmptySources = [] ∧
    matchInternships envEmptySources simZero "s1"
      = (Outcome.errorPayload "No internships found (Supabase + APIs)",
         fetchEvents envEmptySources stEmpty) :=
  ⟨rfl, rfl, rfl, rfl,
   all_sources_empty_fails envEmptySources simZero "s1" stEmpty [] rfl rfl rfl rfl⟩

/-- C1 counterexample: in `envC1` every corpus document is empty after
stop-word removal, and the endpoint does not complete normally with 0.0
scores: `fit_transform` raises the empty-vocabulary error out of the
handler (no surrounding try/except on lines 160-176). -/
theorem empty_vocab_does_not_yield_zero_scores :
    matchInternships envC1 simZero "s1"
      = (Outcome.raised emptyVocabularyMsg, [FetchEvent.catalog]) := by
  decide

/-- C1 amended: whenever the student is resolved, the deduplicated pool
is non-empty and the TF-IDF vocabulary of the corpus is empty, the match
operation terminates with the raised empty-vocabulary error instead of
returning scores. -/
theorem empty_vocab_raises_error (env : Env)
    (simDoc : List String → String → ℚ) (sid : String)
    (st : Student) (rest : List Student)
    (hs : env.studentRes = Except.ok (st :: rest))
    (hpool : dedupedPool env ≠ [])
    (hvocab : buildVocab (corpus env st) = []) :
    matchInternships env simDoc sid
      = (Outcome.raised emptyVocabularyMsg, fetchEvents env st) := by
  simp [matchInternships, hs, hpool, hvocab]

/-- C1 amended witness: the raise evaluated in `envC1`. -/
theorem empty_vocab_raises_error_witness :
    envC1.studentRes = Except.ok (stEmpty :: []) ∧
    dedupedPool envC1 ≠ [] ∧
    buildVocab (corpus envC1 stEmpty) = [] ∧
    matchInternships envC1 simZero "s1"
      = (Outcome.raised emptyVocabularyMsg, fetchEvents envC1 stEmpty) :=
  ⟨rfl, by decide, by decide,
   empty_vocab_raises_error envC1 simZero "s1" stEmpty [] rfl (by decide) (by decide)⟩

/-- C7 counterexample: a datastore exception on the student lookup is
returned to the caller as a third explicit failure payload, distinct
from the not-found and no-candidates conditions. -/
theorem db_error_crosses_core_boundary :
    matchInternships envDbErr simZero "s1"
      = (Outcome.errorPayload "Database error fetching student: connection refused", []) ∧
    "Database error fetching student: connection refused"
        ≠ "No student found with id s1" ∧
    "Database error fetching student: connection refused"
        ≠ "No internships found (Supabase + APIs)" := by
  refine ⟨by decide, by decide, by decide⟩

/-- C7 amended: every source-fetch failure (catalog datastore error;
JSearch missing key, exception or non-200; Adzuna missing credentials,
exception or non-200) is absorbed as an empty contribution for that
source, and the outcomes that cross the boundary are: the raised
empty-vocabulary error, a success, the student-lookup datastore error
payload, the not-found payload, and the no-candidates payload. -/
theorem failure_propagation_policy (env : Env)
    (simDoc : List String → String → ℚ) (sid : String) :
    (∀ e, env.internalRes = Except.error e → internalPool env = []) ∧
    (env.rapidApiKey = none → jsearchCandidates env = []) ∧
    (∀ m, env.jsearchRes = FetchResult.exn m → jsearchCandidates env = []) ∧
    (∀ s jobs, env.jsearchRes = FetchResult.ok s jobs → s ≠ 200 →
        jsearchCandidates env = []) ∧
    (env.adzunaAppId = none → adzunaCandidates env = []) ∧
    (∀ m, env.adzunaRes = FetchResult.exn m → adzunaCandidates env = []) ∧
    (∀ s jobs, env.adzunaRes = FetchResult.ok s jobs → s ≠ 200 →
        adzunaCandidates env = []) ∧
    ((matchInternships env simDoc sid).1 = Outcome.raised emptyVocabularyMsg ∨
     (∃ n ms, (matchInternships env simDoc sid).1 = Outcome.success sid n ms) ∨
     (∃ e, (matchInternships env simDoc sid).1
        = Outcome.errorPayload ("Database error fetching student: " ++ e)) ∨
     (matchInternships env simDoc sid).1
        = Outcome.errorPayload ("No student found with id " ++ sid) ∨
     (matchInternships env simDoc sid).1
        = Outcome.errorPayload "No internships found (Supabase + APIs)") := by
  refine ⟨?_, ?_, ?_, ?_, ?_, ?_, ?_, ?_⟩
  · intro e he; simp [internalPool, he]
  · intro hk; simp [jsearchCandidates, hk, isTruthy]
  · intro m hm
    by_cases hk : isTruthy env.rapidApiKey <;> simp [jsearchCandidates, hk, hm]
  · intro s jobs hok hs
    by_cases hk : isTruthy env.rapidApiKey <;> simp [jsearchCandidates, hk, hok, hs]
  · intro hk; simp [adzunaCandidates, hk, isTruthy]
  · intro m hm
    by_cases hk : isTruthy env.adzunaAppId && isTruthy env.adzunaAppKey <;>
      simp [adzunaCandidates, hk, hm]
  · intro s jobs hok hs
    by_cases hk : isTruthy env.adzunaAppId && isTruthy env.adzunaAppKey <;>
      simp [adzunaCandidates, hk, hok, hs]
  · rcases hres : env.studentRes with e | rows
    · right; right; left
      exact ⟨e, by simp [matchInternships, hres]⟩
    · rcases rows with _ | ⟨st, rest⟩
      · right; right; right; left
        simp [matchInternships, hres]
      · by_cases hd : dedupedPool env = []
        · right; right; right; right
          simp [matchInternships, hres, hd]
        · by_cases hv : buildVocab (corpus env st) = []
          · left; simp [matchInternships, hres, hd, hv]
          · right; left
            refine ⟨((topMatches env simDoc st).map toRankedMatch).length,
              (topMatches env simDoc st).map toRankedMatch, ?_⟩
            simp [matchInternships, hres, hd, hv]

/-- C7 amended witness: in `envAbsorb` all three sources fail and every
contribution is empty; the outcome is one of the boundary shapes. -/
theorem failure_propagation_policy_witness :
    internalPool envAbsorb = [] ∧
    jsearchCandidates envAbsorb = [] ∧
    adzunaCandidates envAbsorb = [] ∧
    ((matchInternships envAbsorb simZero "s1").1 = Outcome.raised emptyVocabularyMsg ∨
     (∃ n ms, (matchInternships envAbsorb simZero "s1").1 = Outcome.success "s1" n ms) ∨
     (∃ e, (matchInternships envAbsorb simZero "s1").1
        = Outcome.errorPayload ("Database error fetching student: " ++ e)) ∨
     (matchInternships envAbsorb simZero "s1").1
        = Outcome.errorPayload ("No student found with id " ++ "s1") ∨
     (matchInternships envAbsorb simZero "s1").1
        = Outcome.errorPayload "No internships found (Supabase + APIs)") :=
  ⟨(failure_propagation_policy envAbsorb simZero "s1").1 "ds down" rfl,
   (failure_propagation_policy envAbsorb simZero "s1").2.2.1 "timeout" rfl,
   (failure_propagation_policy envAbsorb simZero "s1").2.2.2.2.2.2.1 500 [] rfl
     (by decide),
   (failure_propagation_policy envAbsorb simZero "s1").2.2.2.2.2.2.2⟩

/-- C8 counterexample: an Adzuna response of eleven raw results is
normalized into eleven candidates — the loop on line 130 has no local
`[:10]` cap, so the bound is not enforced by the adapter for every size
of provider response. -/
theorem adzuna_has_no_local_cap :
    (adzunaCandidates envAdz11).length = 11 ∧
    ¬ (adzunaCandidates envAdz11).length ≤ 10 := by
  refine ⟨by decide, by decide⟩

/-- C8 amended: the JSearch adapter caps its normalized output at 10
before normalization for every response; the Adzuna adapter only asks
the provider for 10 results per page (`results_per_page=10`) and
normalizes every result the provider actually returns, with no local
cap. -/
theorem provider_result_caps (env : Env) :
    (jsearchCandidates env).length ≤ 10 ∧
    (∀ jobs, isTruthy env.adzunaAppId = true → isTruthy env.adzunaAppKey = true →
        env.adzunaRes = FetchResult.ok 200 jobs →
        (adzunaCandidates env).length = jobs.length) ∧
    adzunaResultsPerPage = 10 := by
  refine ⟨?_, ?_, rfl⟩
  · by_cases hk : isTruthy env.rapidApiKey
    · rcases hres : env.jsearchRes with ⟨s, jobs⟩ | m
      · by_cases hs : s = 200
        · simp only [jsearchCandidates, hk, if_true, hres, hs, if_pos]
          rw [mapWithIndexFrom_length]
          simp [List.length_take]
        · simp [jsearchCandidates, hk, hres, hs]
      · simp [jsearchCandidates, hk, hres]
    · simp [jsearchCandidates, hk]
  · intro jobs h1 h2 hres
    simp [adzunaCandidates, h1, h2, hres, mapWithIndexFrom_length]

/-- C8 amended witness: the caps evaluated in `envAdz11` (and the
JSearch bound in `env4`). -/
theorem provider_result_caps_witness :
    (jsearchCandidates env4).length ≤ 10 ∧
    isTruthy envAdz11.adzunaAppId = true ∧
    isTruthy envAdz11.adzunaAppKey = true ∧
    (adzunaCandidates envAdz11).length = (List.replicate 11 adzJob).length :=
  ⟨(provider_result_caps env4).1, rfl, rfl,
   (provider_result_caps envAdz11).2.1 (List.replicate 11 adzJob) rfl rfl rfl⟩

/-- C9 counterexample: with the non-empty skill list `["python"]` the
request still sends the bare default query `"internship"` to Adzuna (its
`what` parameter is hard-coded on line 125), so the provider-B query is
neither derived from the skills nor equal to the default exactly when
the skills are empty. -/
theorem adzuna_query_not_from_skills :
    (matchInternships envC9 simZero "s9").2
      = [FetchEvent.catalog, FetchEvent.jsearch "python+internship",
         FetchEvent.adzuna "internship"] ∧
    stPy.skills ≠ [] := by
  refine ⟨by decide, by decide⟩

/-- C9 amended: the JSearch query is derived from the skills — the
`"+"`-join of the skills, defaulting to `"internship"` exactly when that
join is empty, with `"+internship"` appended — while the Adzuna query is
the constant `"internship"` for every profile. -/
theorem provider_query_derivation (skills : List String) (env : Env)
    (st : Student) :
    (String.intercalate "+" skills = "" →
        jsearchQueryParam skills = "internship+internship") ∧
    (String.intercalate "+" skills ≠ "" →
        jsearchQueryParam skills = String.intercalate "+" skills ++ "+internship") ∧
    (∀ q, FetchEvent.jsearch q ∈ fetchEvents env st →
        q = jsearchQueryParam st.skills) ∧
    (∀ q, FetchEvent.adzuna q ∈ fetchEvents env st → q = "internship") := by
  refine ⟨?_, ?_, ?_, ?_⟩
  · intro h; simp [jsearchQueryParam, skillsQuery, h]
  · intro h; simp [jsearchQueryParam, skillsQuery, h]
  · intro q hq
    by_cases h1 : isTruthy env.rapidApiKey <;>
      by_cases h2 : isTruthy env.adzunaAppId && isTruthy env.adzunaAppKey <;>
        simp [fetchEvents, h1, h2] at hq <;> exact hq
  · intro q hq
    by_cases h1 : isTruthy env.rapidApiKey <;>
      by_cases h2 : isTruthy env.adzunaAppId && isTruthy env.adzunaAppKey <;>
        simp [fetchEvents, h1, h2, adzunaWhat] at hq <;> exact hq

/-- C9 amended witness: the query derivation evaluated at the skill list
`["python"]` and the trace of `envC9`. -/
theorem provider_query_derivation_witness :
    String.intercalate "+" ["python"] ≠ "" ∧
    jsearchQueryParam ["python"] = String.intercalate "+" ["python"] ++ "+internship" ∧
    FetchEvent.adzuna "internship" ∈ fetchEvents envC9 stPy ∧
    (FetchEvent.adzuna "internship" ∈ fetchEvents envC9 stPy → "internship" = "internship") :=
  ⟨by decide,
   (provider_query_derivation ["python"] envC9 stPy).2.1 (by decide),
   by decide,
   fun h => (provider_query_derivation ["python"] envC9 stPy).2.2.2 "internship" h⟩

end Interlink
